import Mathlib

/-!
Verification development for the invoice-extraction heuristic of
`datos_empresas/app_facturas.py`.

The Python program is shallowly embedded: a worksheet becomes a `Grid`
(a finite association list of cells plus the sheet bounds and the print
header/footer texts), Python cell values become the variant type
`CellValue`, Python floats are modelled as exact rationals, and every
extraction routine of the source file becomes a total executable Lean
function with the same name.  Text normalisation is modelled over the
character repertoire the program actually manipulates (ASCII plus the
Spanish accented vowels, `ü` and `ñ`).
-/

namespace Facturas

/-- A cell value as seen by the program: `None`, a string, an int, a
float (modelled as an exact rational), a bool, or a `datetime`-like
calendar value (the only attribute the program uses is `strftime`). -/
inductive CellValue where
  | vNone : CellValue
  | vStr (s : String) : CellValue
  | vInt (n : Int) : CellValue
  | vFloat (q : ℚ) : CellValue
  | vBool (b : Bool) : CellValue
  | vDate (y m d : Nat) : CellValue
deriving DecidableEq

/-- Python truthiness of a cell value (`bool(v)`): `None`, `""`, `0`,
`0.0` and `False` are falsy; a `datetime` is always truthy. -/
def pyTruthy : CellValue → Bool
  | .vNone => false
  | .vStr s => !(s == "")
  | .vInt n => !(n == 0)
  | .vFloat q => !(q == 0)
  | .vBool b => b
  | .vDate _ _ _ => true

/-- Zero-pad a number to two digits (as `strftime`'s `%d`/`%m` do). -/
def pad2 (n : Nat) : String :=
  if n < 10 then "0" ++ toString n else toString n

/-- Zero-pad a number to four digits (as `strftime`'s `%Y` does). -/
def pad4 (n : Nat) : String :=
  if n < 10 then "000" ++ toString n
  else if n < 100 then "00" ++ toString n
  else if n < 1000 then "0" ++ toString n
  else toString n

/-- Left-pad a string with `'0'` up to length `k`. -/
def padZeros (s : String) (k : Nat) : String :=
  String.mk (List.replicate (k - s.length) '0') ++ s

/-- Smallest exponent `k ≤ 64` with `q * 10^k` integral, if any.
Every value a binary float can take has such an exponent. -/
def decExp (q : ℚ) : Option Nat :=
  (List.range 65).find? (fun k => (q * (10 : ℚ) ^ k).den == 1)

/-- `str` of a float, modelled for terminating decimals: an integral
value renders as `"n.0"` (Python prints `str(5.0) = "5.0"`), other
terminating decimals render with their digits after the point.  The
final case is unreachable for values that arise from binary floats. -/
def floatRepr (q : ℚ) : String :=
  let sign := if q < 0 then "-" else ""
  let a : ℚ := |q|
  match decExp a with
  | some 0 => sign ++ toString a.num ++ ".0"
  | some k =>
      let n := (a * (10 : ℚ) ^ k).num.toNat
      sign ++ toString (n / 10 ^ k) ++ "." ++ padZeros (toString (n % 10 ^ k)) k
  | none => sign ++ toString a.num ++ "div" ++ toString a.den

/-- Python `str(v)` for a cell value.  `str(None) = "None"`; a
`datetime` prints as `"YYYY-MM-DD 00:00:00"`. -/
def pyStr : CellValue → String
  | .vNone => "None"
  | .vStr s => s
  | .vInt n => toString n
  | .vFloat q => floatRepr q
  | .vBool b => if b then "True" else "False"
  | .vDate y m d => pad4 y ++ "-" ++ pad2 m ++ "-" ++ pad2 d ++ " 00:00:00"

/-- The whitespace characters stripped by Python's `str.strip()`. -/
def isPySpace (c : Char) : Bool :=
  c == ' ' || c == '\t' || c == '\n' || c == '\r' || c == '\x0b' || c == '\x0c'

/-- `str.upper()` on one character, over the modelled repertoire. -/
def pyUpperChar (c : Char) : Char :=
  if 'a' ≤ c ∧ c ≤ 'z' then Char.ofNat (c.toNat - 32)
  else if c = 'á' then 'Á' else if c = 'é' then 'É' else if c = 'í' then 'Í'
  else if c = 'ó' then 'Ó' else if c = 'ú' then 'Ú' else if c = 'ü' then 'Ü'
  else if c = 'ñ' then 'Ñ' else c

/-- Accent removal: NFD decomposition followed by dropping combining
marks sends each accented (upper-case) letter to its base letter; in
particular `Ñ ↦ N`. -/
def stripAccentChar (c : Char) : Char :=
  if c = 'Á' then 'A' else if c = 'É' then 'E' else if c = 'Í' then 'I'
  else if c = 'Ó' then 'O' else if c = 'Ú' then 'U' else if c = 'Ü' then 'U'
  else if c = 'Ñ' then 'N' else c

/-- `str.strip()` on a character list. -/
def pyStripList (cs : List Char) : List Char :=
  ((cs.dropWhile isPySpace).reverse.dropWhile isPySpace).reverse

/-- `str.strip()`. -/
def pyStrip (s : String) : String := String.mk (pyStripList s.data)

/-- The body of `normalize_text` on a (truthy) string:
`str(text).upper().strip()` followed by accent removal. -/
def normalizeStr (s : String) : String :=
  String.mk ((pyStripList (s.data.map pyUpperChar)).map stripAccentChar)

/-- `normalize_text` (app_facturas.py lines 10-19): falsy input yields
`""`; otherwise stringify, upper-case, trim and strip accents. -/
def normalize_text (v : CellValue) : String :=
  if pyTruthy v then normalizeStr (pyStr v) else ""

/-- Contiguous-sublist test on character lists (Python's `in` on
strings): `listContains pat s` decides whether `pat` occurs in `s`. -/
def listContains (pat : List Char) : List Char → Bool
  | [] => pat.isEmpty
  | c :: t => pat.isPrefixOf (c :: t) || listContains pat t

/-- Python `pat in s` for strings. -/
def strContains (s pat : String) : Bool := listContains pat.data s.data

/-- Python `s.startswith(pat)`. -/
def strStartsWith (s pat : String) : Bool := pat.data.isPrefixOf s.data

/-- Python `s.isdigit()` over the modelled (ASCII) repertoire. -/
def strIsDigit (s : String) : Bool := !s.data.isEmpty && s.data.all Char.isDigit

/-- A regex word character (`\w`): alphanumeric or underscore. -/
def isWordChar (c : Char) : Bool := c.isAlphanum || c == '_'

/-- `\b` holds to the left of the current position given the previous
character (none at the start of the string). -/
def boundaryL : Option Char → Bool
  | none => true
  | some c => !isWordChar c

/-- `\b` holds at the start of the remaining suffix. -/
def boundaryR : List Char → Bool
  | [] => true
  | c :: _ => !isWordChar c

/-- Helper for `re.search(r"\b pat \b", s)`: walk the string keeping
the previous character, testing for a word-bounded occurrence at each
position. -/
def wholeWordAux (pat : List Char) : Option Char → List Char → Bool
  | prev, [] => boundaryL prev && pat.isEmpty
  | prev, c :: t =>
      (boundaryL prev && pat.isPrefixOf (c :: t) && boundaryR ((c :: t).drop pat.length)) ||
      wholeWordAux pat (some c) t

/-- `re.search(r"\b{pat}\b", s) is not None` for an alphanumeric `pat`. -/
def wholeWordMatch (pat s : String) : Bool := wholeWordAux pat.data none s.data

/-- Value of a list of decimal digits. -/
def digitsToNat (cs : List Char) : Nat :=
  cs.foldl (fun a c => a * 10 + (c.toNat - '0'.toNat)) 0

/-- Python `float(s)` on an unsigned decimal literal: digits with at
most one point and at least one digit; anything else raises. -/
def parseUnsignedDec (cs : List Char) : Option ℚ :=
  let ip := cs.takeWhile Char.isDigit
  match cs.dropWhile Char.isDigit with
  | [] => if ip.isEmpty then none else some (digitsToNat ip : ℚ)
  | '.' :: fr =>
      if fr.all Char.isDigit && (!ip.isEmpty || !fr.isEmpty) then
        some ((digitsToNat ip : ℚ) + (digitsToNat fr : ℚ) / ((10 : ℚ) ^ fr.length))
      else none
  | _ => none

/-- Python `float(s)` on the cleaned character lists `get_float`
produces (digits, `.` and `-` only): an optional leading minus sign
followed by an unsigned decimal literal. -/
def parsePyFloat : List Char → Option ℚ
  | '-' :: rest => (parseUnsignedDec rest).map (fun q => -q)
  | cs => parseUnsignedDec cs

/-- `get_float` (lines 27-36): `None ↦ 0.0`; otherwise keep only
digits, `.`, `,`, `-` from `str(s)`, return `0.0` if nothing is left,
drop the commas and parse as a float, with `ValueError ↦ 0.0`. -/
def get_float (v : CellValue) : ℚ :=
  match v with
  | .vNone => 0
  | _ =>
    let s1 := (pyStr v).data.filter (fun c => c.isDigit || c == '.' || c == ',' || c == '-')
    if s1.isEmpty then 0
    else
      match parsePyFloat (s1.filter (fun c => !(c == ','))) with
      | some q => q
      | none => 0

/-- The bilingual month table of `parse_month`, in source order. -/
def month_table : List (String × String) :=
  [("ENERO", "01"), ("JANUARY", "01"), ("JAN", "01"),
   ("FEBRERO", "02"), ("FEBRUARY", "02"), ("FEB", "02"),
   ("MARZO", "03"), ("MARCH", "03"), ("MAR", "03"),
   ("ABRIL", "04"), ("APRIL", "04"), ("APR", "04"),
   ("MAYO", "05"), ("MAY", "05"),
   ("JUNIO", "06"), ("JUNE", "06"), ("JUN", "06"),
   ("JULIO", "07"), ("JULY", "07"), ("JUL", "07"),
   ("AGOSTO", "08"), ("AUGUST", "08"), ("AUG", "08"),
   ("SEPTIEMBRE", "09"), ("SEPTEMBER", "09"), ("SEP", "09"),
   ("OCTUBRE", "10"), ("OCTOBER", "10"), ("OCT", "10"),
   ("NOVIEMBRE", "11"), ("NOVEMBER", "11"), ("NOV", "11"),
   ("DICIEMBRE", "12"), ("DECEMBER", "12"), ("DEC", "12")]

/-- `parse_month` (lines 38-58): normalise, return the number of the
first month name contained in the text, else zero-pad a single digit,
else return the text if purely numeric, else `None`. -/
def parse_month (text0 : String) : Option String :=
  let text := normalizeStr text0
  match month_table.findSome? (fun kv => if strContains text kv.1 then some kv.2 else none) with
  | some v => some v
  | none =>
    if strIsDigit text && text.length == 1 then some ("0" ++ text)
    else if strIsDigit text then some text
    else none

/-- A worksheet as the program sees it: the workbook bounds, a finite
association list of populated cells (1-based coordinates; every other
coordinate reads as `None`, as openpyxl's accessors do), and the list
of non-empty print header/footer property texts, in property order. -/
structure Grid where
  maxRow : Nat
  maxCol : Nat
  cells : List (Nat × Nat × CellValue)
  hfTexts : List String
deriving DecidableEq

/-- `sheet.cell(row=r, column=c).value`: the stored value, else `None`. -/
def cellAt (g : Grid) (r c : Nat) : CellValue :=
  match g.cells.find? (fun e => e.1 == r && e.2.1 == c) with
  | some e => e.2.2
  | none => .vNone

/-! Keyword sets, exactly as listed at the call sites of
`process_file` (lines 183, 187, 191-193, 203, 229, 234, 242, 246,
249, 254-255, 258, 286-289, 355). -/

def kw_cliente : List String := ["CLIENTE", "CUSTOMER", "CONSIGNEE", "SOLD TO"]
def kw_exp : List String := ["EXP", "INVOICE NO", "FACTURA N"]
def kw_ano : List String := ["AÑO", "YEAR"]
def kw_mes : List String := ["MES", "MONTH"]
def kw_dia : List String := ["DIA", "DAY"]
def kw_fecha : List String := ["FECHA", "DATE"]
def kw_condicion : List String := ["CONDICION DE VENTA", "TERMS OF SALE", "DELIVERY TERMS", "INCOTERM"]
def kw_flete : List String := ["TIPO FLETE", "FREIGHT TYPE"]
def kw_pago : List String := ["FORMA DE PAGO", "PAYMENT TERMS"]
def kw_puerto_emb : List String := ["PUERTO DE EMBARQUE", "LOADING PORT", "POL"]
def kw_puerto_dest : List String := ["PUERTO DESTINO", "DISCHARGING PORT", "DESTINATION", "POD"]
def kw_tipo_cambio : List String := ["TIPO DE CAMBIO", "TIPO CAMBIO", "T.C.", "EXCHANGE RATE"]
def kw_obs : List String := ["OBSERVACIONES", "REMARKS", "NOTAS", "GLOSA", "COMENTARIOS"]
def incoterm_list : List String := ["FOB", "CIF", "CFR", "EXW", "FCA"]
def currency_map : List (String × String) :=
  [("DÓLAR", "USD"), ("DOLAR", "USD"), ("USD", "USD"), ("EURO", "EUR")]
def kw_desc : List String := ["DESCRIPCION", "DESCRIPTION", "MERCADERIA"]
def kw_qty : List String := ["CANTIDAD", "QUANTITY", "QTTY", "PCS", "BOXES"]
def kw_price : List String := ["PRECIO", "PRICE", "UNIT"]
def kw_total : List String := ["TOTAL"]

/-- `find_label_cell` (lines 62-76): scan rows 1-150, columns 1-50 in
row-major order; the first non-empty normalised cell containing any
normalised keyword as a substring yields its coordinate. -/
def find_label_cell (g : Grid) (keywords : List String) : Option (Nat × Nat) :=
  let kn := keywords.map normalizeStr
  (List.range 150).findSome? fun ri =>
    (List.range 50).findSome? fun ci =>
      let val := normalize_text (cellAt g (ri + 1) (ci + 1))
      if val == "" then none
      else if kn.any (fun k => strContains val k) then some (ri + 1, ci + 1)
      else none

/-- A probing direction of `extract_value_near_label`. -/
inductive Dir where
  | below : Dir
  | right : Dir
deriving DecidableEq

/-- `extract_value_near_label` (lines 78-100): probe below then right
of the label, steps `1..maxSteps`; return the first original cell
value whose normalised text is non-empty, skipping candidates that
contain `"CLIENTE"` or `"FECHA"` (they look like another label). -/
def extract_value_near_label (g : Grid) (labelRow labelCol : Nat)
    (lookDown : Bool := true) (lookRight : Bool := true) (maxSteps : Nat := 10) :
    Option CellValue :=
  let dirs := (if lookDown then [Dir.below] else []) ++ (if lookRight then [Dir.right] else [])
  dirs.findSome? fun d =>
    (List.range maxSteps).findSome? fun i =>
      let rc : Nat × Nat :=
        match d with
        | .below => (labelRow + (i + 1), labelCol)
        | .right => (labelRow, labelCol + (i + 1))
      let v := cellAt g rc.1 rc.2
      let vn := normalize_text v
      if vn == "" then none
      else if strContains vn "CLIENTE" || strContains vn "FECHA" then none
      else some v

/-- The label-then-neighbour pattern used for each plain header field:
`extract_value_near_label(sheet, *coords) if coords else None`. -/
def resolve_labeled_field (g : Grid) (kws : List String) : Option CellValue :=
  match find_label_cell g kws with
  | some (r, c) => extract_value_near_label g r c
  | none => none

/-- `scan_headers_footers` (lines 102-118): join the non-empty print
header/footer texts with `" | "`, or `None` if there are none. -/
def scan_headers_footers (g : Grid) : Option String :=
  if g.hfTexts.isEmpty then none else some (String.intercalate " | " g.hfTexts)

/-- Stop markers ignored by `find_longest_text_in_footer` (line 133). -/
def footer_stop_words : List String :=
  ["TOTAL", "PAGE", "FIRMA", "SIGNATURE", "GRACIAS", "PAGINA"]

/-- One state-update step of `find_longest_text_in_footer`: keep the
longest stripped text so far (with its length). -/
def footerStep (g : Grid) (minLength : Nat) (st : Option String × Nat) (r c : Nat) :
    Option String × Nat :=
  let v := cellAt g r c
  let val := if pyTruthy v then pyStrip (pyStr v) else ""
  if footer_stop_words.any (fun w => strContains (normalizeStr val) w) then st
  else if val.length > minLength && val.length > st.2 then (some val, val.length)
  else st

/-- `find_longest_text_in_footer` (lines 120-141): brute-force scan of
rows `startRow .. min(startRow+49, maxRow)`, columns 1-24, for the
longest stripped text above `minLength` that carries no stop marker. -/
def find_longest_text_in_footer (g : Grid) (startRow : Nat) (minLength : Nat := 20) :
    Option String :=
  let numRows := min (startRow + 50) (g.maxRow + 1) - startRow
  ((List.range' startRow numRows).foldl (fun st r =>
    (List.range 24).foldl (fun st ci => footerStep g minLength st r (ci + 1)) st)
    (none, 0)).1

/-- The cell part of `get_all_sheet_text` (lines 144-156): the string
of every truthy cell in rows `1 .. min(maxRow, 199)`, columns
`1 .. min(maxCol, 29)`, in row-major order. -/
def cellTexts (g : Grid) : List String :=
  (List.range (min (g.maxRow + 1) 200 - 1)).foldr (fun ri acc =>
    ((List.range (min (g.maxCol + 1) 30 - 1)).filterMap fun ci =>
      let v := cellAt g (ri + 1) (ci + 1)
      if pyTruthy v then some (pyStr v) else none) ++ acc) []

/-- `get_all_sheet_text` (lines 144-163): the cell texts followed by
the joined header/footer text row, when present.  (Only the `Valor`
column of the diagnostic frame matters to the extraction logic.) -/
def get_all_sheet_text (g : Grid) : List String :=
  cellTexts g ++ (match scan_headers_footers g with | some t => [t] | none => [])

/-- The inner incoterm loop of the global scan (lines 267-269): every
whole-word hit overwrites, so the last matching code in list order
wins within one cell text. -/
def cellIncoterm (v : String) : Option String :=
  incoterm_list.foldl
    (fun a inc => if wholeWordMatch inc (normalizeStr v) then some inc else a) none

/-- The inner currency loop of the global scan (lines 272-275). -/
def cellMoneda (v : String) : Option String :=
  currency_map.foldl
    (fun a kv => if strContains (normalizeStr v) kv.1 then some kv.2 else a) none

/-- One step of the global scan's state update: `if not detected:`
keep an already-detected code, else run the per-cell detector. -/
def detectStep {β : Type} (f : String → Option β) (acc : Option β) (v : String) :
    Option β :=
  match acc with
  | some _ => acc
  | none => f v

/-- Incoterm global scan (lines 252-269): fold over the diagnostic
texts; once a code is detected, later cells cannot overwrite it. -/
def detect_incoterm (g : Grid) : Option String :=
  (get_all_sheet_text g).foldl (detectStep cellIncoterm) none

/-- Currency global scan (lines 252-275), same early-exit shape. -/
def detect_moneda (g : Grid) : Option String :=
  (get_all_sheet_text g).foldl (detectStep cellMoneda) none

/-- Truthiness of an optional resolved value, as Python's `if x and y
and z` sees it (`None` and falsy cell values both fail). -/
def truthyOpt : Option CellValue → Bool
  | some v => pyTruthy v
  | none => false

/-- The year/month/day component resolutions of lines 191-197. -/
def resolve_val_y (g : Grid) : Option CellValue := resolve_labeled_field g kw_ano

/-- See `resolve_val_y`. -/
def resolve_val_m (g : Grid) : Option CellValue := resolve_labeled_field g kw_mes

/-- See `resolve_val_y`. -/
def resolve_val_d (g : Grid) : Option CellValue := resolve_labeled_field g kw_dia

/-- How an f-string renders an optional month string (`None` prints as
`"None"`). -/
def pyFStrOptStr : Option String → String
  | some s => s
  | none => "None"

/-- `raw_date.strftime('%d/%m/%Y')` when the value has calendar
semantics (`hasattr(raw_date, 'strftime')`), else `none`. -/
def strftimeDMY : CellValue → Option String
  | .vDate y m d => some (pad2 d ++ "/" ++ pad2 m ++ "/" ++ pad4 y)
  | _ => none

/-- The combined-label fallback of the date field (lines 203-211). -/
def resolve_fecha_fallback (g : Grid) : Option CellValue :=
  match find_label_cell g kw_fecha with
  | some (r, c) =>
    match extract_value_near_label g r c with
    | some rawDate =>
      match strftimeDMY rawDate with
      | some s => some (.vStr s)
      | none => some rawDate
    | none => none
  | none => none

/-- Date assembly (lines 190-211): if the three labelled components
all resolve to truthy values, emit `f"{val_d}/{parse_month(val_m)}/{val_y}"`
(the day is inserted as-is, only the month goes through `parse_month`);
otherwise fall back to a single date label. -/
def resolve_fecha (g : Grid) : Option CellValue :=
  match resolve_val_y g, resolve_val_m g, resolve_val_d g with
  | some y, some m, some d =>
    if pyTruthy y && pyTruthy m && pyTruthy d then
      some (.vStr (pyStr d ++ "/" ++ pyFStrOptStr (parse_month (pyStr m)) ++ "/" ++ pyStr y))
    else resolve_fecha_fallback g
  | _, _, _ => resolve_fecha_fallback g

/-- The rescue phrases of the sale-condition override (line 221). -/
def rescue_phrases : List String := ["BAJO CONDICION", "UNDER CONDITION", "A CONSIGNACION"]

/-- Rescue scan (lines 214-224): first diagnostic text containing a
rescue phrase, returned verbatim. -/
def condicion_found (g : Grid) : Option String :=
  (get_all_sheet_text g).findSome? fun v =>
    if rescue_phrases.any (fun p => strContains (normalizeStr v) p) then some v else none

/-- Sale condition (lines 213-238): rescue phrase first, then the
strong label set, then the weak freight-type label. -/
def resolve_condicion (g : Grid) : Option CellValue :=
  match condicion_found g with
  | some s => some (.vStr s)
  | none =>
    match find_label_cell g kw_condicion with
    | some (r, c) => extract_value_near_label g r c
    | none =>
      match find_label_cell g kw_flete with
      | some (r, c) => extract_value_near_label g r c
      | none => none

/-- The column-role map built from a detected header row (`col_map`). -/
structure ColMap where
  descripcion : Option Nat
  cantidad : Option Nat
  precio : Option Nat
  totalLinea : Option Nat
deriving DecidableEq

/-- An accepted product row; quantity, price and total are parsed
numbers, the description keeps the original cell value. -/
structure Product where
  descripcion : CellValue
  cantidad : ℚ
  precioUnitario : ℚ
  totalLinea : ℚ
deriving DecidableEq

/-- Does row `r` qualify as the table header (line 299): some cell in
columns 1-29 matches the description vocabulary and some cell matches
the quantity vocabulary? -/
def headerRowMatches (g : Grid) (r : Nat) : Bool :=
  let ts := (List.range 29).map fun ci => normalize_text (cellAt g r (ci + 1))
  (ts.any fun t => kw_desc.any fun k => strContains t k) &&
  (ts.any fun t => kw_qty.any fun k => strContains t k)

/-- Column mapping inside the header row (lines 301-307): each
non-empty cell is assigned to the first matching keyword family; a
later matching cell overwrites the recorded column; a TOTAL cell that
mentions `"TOTAL CASES"` or `"FOB"` is not taken as the line total. -/
def buildColMap (g : Grid) (r : Nat) : ColMap :=
  (List.range 29).foldl (fun m ci =>
    let c := ci + 1
    let v := normalize_text (cellAt g r c)
    if v == "" then m
    else if kw_desc.any (fun k => strContains v k) then { m with descripcion := some c }
    else if kw_qty.any (fun k => strContains v k) then { m with cantidad := some c }
    else if kw_price.any (fun k => strContains v k) then { m with precio := some c }
    else if kw_total.any (fun k => strContains v k) && !(strContains v "TOTAL CASES")
            && !(strContains v "FOB") then { m with totalLinea := some c }
    else m)
    { descripcion := none, cantidad := none, precio := none, totalLinea := none }

/-- Header-row search (lines 291-308): first row in 1-99 qualifying
under `headerRowMatches`, with its column map. -/
def find_header_row (g : Grid) : Option (Nat × ColMap) :=
  (List.range 99).findSome? fun ri =>
    if headerRowMatches g (ri + 1) then some (ri + 1, buildColMap g (ri + 1)) else none

/-- The normalised description of data row `r` (`dc` is the mapped
description column). -/
def rowDescNorm (g : Grid) (dc : Nat) (r : Nat) : String :=
  normalize_text (cellAt g r dc)

/-- Parsed quantity of row `r` (line 322: a missing quantity column
reads as the literal `0`). -/
def rowQty (g : Grid) (cm : ColMap) (r : Nat) : ℚ :=
  get_float (match cm.cantidad with | some c => cellAt g r c | none => .vInt 0)

/-- Parsed unit price of row `r` (line 323). -/
def rowPrice (g : Grid) (cm : ColMap) (r : Nat) : ℚ :=
  get_float (match cm.precio with | some c => cellAt g r c | none => .vInt 0)

/-- Parsed raw line total of row `r` (line 324). -/
def rowTotalRaw (g : Grid) (cm : ColMap) (r : Nat) : ℚ :=
  get_float (match cm.totalLinea with | some c => cellAt g r c | none => .vInt 0)

/-- The robust row filter (line 331): positive parsed price, non-empty
normalised description, and no `"TOTAL"` inside the description. -/
def acceptRow (g : Grid) (dc : Nat) (cm : ColMap) (r : Nat) : Bool :=
  decide (0 < rowPrice g cm r) && !(rowDescNorm g dc r == "")
    && !(strContains (rowDescNorm g dc r) "TOTAL")

/-- The product built from an accepted row (lines 332-337): the raw
line total is kept when positive, else recomputed as quantity×price. -/
def mkProd (g : Grid) (dc : Nat) (cm : ColMap) (r : Nat) : Product :=
  { descripcion := cellAt g r dc
    cantidad := rowQty g cm r
    precioUnitario := rowPrice g cm r
    totalLinea :=
      if 0 < rowTotalRaw g cm r then rowTotalRaw g cm r
      else rowQty g cm r * rowPrice g cm r }

/-- The row-streaming loop (lines 310-347), with the remaining row
budget `maxRow + 1 - curr` made explicit as fuel.  A `TOTAL`-prefixed
description stops the stream (row excluded); an accepted row resets
the blank streak; a blank description increments it and aborts the
scan once it exceeds 15 (the abort records `curr - 15`, which on every
reachable state equals the Python value since at least 16 rows have
been consumed); a rejected non-blank row leaves the streak unchanged. -/
def scanAux (g : Grid) (dc : Nat) (cm : ColMap) :
    Nat → Nat → Nat → List Product → Nat → List Product × Nat
  | 0, _, _, acc, lastRow => (acc.reverse, lastRow)
  | fuel + 1, curr, streak, acc, lastRow =>
    if strStartsWith (rowDescNorm g dc curr) "TOTAL" then (acc.reverse, curr)
    else if acceptRow g dc cm curr then
      scanAux g dc cm fuel (curr + 1) 0 (mkProd g dc cm curr :: acc) curr
    else if rowDescNorm g dc curr == "" then
      if streak + 1 > 15 then (acc.reverse, curr - 15)
      else scanAux g dc cm fuel (curr + 1) (streak + 1) acc lastRow
    else scanAux g dc cm fuel (curr + 1) streak acc lastRow

/-- Run the row stream from `headerRow + 1` while `curr ≤ maxRow`,
with the initial `last_row_table = 20` of line 284. -/
def scanTable (g : Grid) (dc : Nat) (cm : ColMap) (headerRow : Nat) :
    List Product × Nat :=
  scanAux g dc cm (g.maxRow - headerRow) (headerRow + 1) 0 [] 20

/-- The value of the loop's `empty_streak` variable after processing
rows `start .. start + i - 1` from an initial value `s0`, assuming no
iteration terminated the loop: an accepted row resets it, a blank row
increments it, a rejected non-blank row leaves it unchanged (lines
339-346).  Bookkeeping used to state the general stop-rule theorem. -/
def scanStreak (g : Grid) (dc : Nat) (cm : ColMap) : Nat → Nat → Nat → Nat
  | _, s0, 0 => s0
  | start, s0, i + 1 =>
    scanStreak g dc cm (start + 1)
      (if acceptRow g dc cm start then 0
       else if rowDescNorm g dc start == "" then s0 + 1 else s0) i

/-- Product extraction (lines 280-349): locate the header row, and
stream data rows when a description column was mapped; otherwise no
products and `last_row_table = 20`. -/
def process_products (g : Grid) : List Product × Nat :=
  match find_header_row g with
  | some (h, cm) =>
    match cm.descripcion with
    | some dc => scanTable g dc cm h
    | none => ([], 20)
  | none => ([], 20)

/-- Observations (lines 351-369): label resolution, then the footer
brute-force scan from `last_row_table + 1`, then the print
header/footer text when longer than 20 characters. -/
def resolve_observaciones (g : Grid) (lastRowTable : Nat) : Option CellValue :=
  let step1 := resolve_labeled_field g kw_obs
  if truthyOpt step1 then step1
  else
    match find_longest_text_in_footer g (lastRowTable + 1) with
    | some s => some (.vStr s)
    | none =>
      match scan_headers_footers g with
      | some hf => if hf.length > 20 then some (.vStr hf) else none
      | none => none

/-- The header fields of one document (`header_data`), each written by
the numbered steps of `process_file`; the currency and incoterm come
from the global scan, not from labels. -/
structure HeaderData where
  cliente : Option CellValue
  numExp : Option CellValue
  fecha : Option CellValue
  condicionVenta : Option CellValue
  formaPago : Option CellValue
  puertoEmb : Option CellValue
  puertoDest : Option CellValue
  tipoCambio : Option CellValue
  moneda : Option CellValue
  incoterm : Option CellValue
  observaciones : Option CellValue
deriving DecidableEq

/-- All header resolutions of `process_file` (lines 182-278, 351-369);
the observations step uses the `last_row_table` left by the table
scan. -/
def process_header (g : Grid) : HeaderData :=
  { cliente := resolve_labeled_field g kw_cliente
    numExp := resolve_labeled_field g kw_exp
    fecha := resolve_fecha g
    condicionVenta := resolve_condicion g
    formaPago := resolve_labeled_field g kw_pago
    puertoEmb := resolve_labeled_field g kw_puerto_emb
    puertoDest := resolve_labeled_field g kw_puerto_dest
    tipoCambio := resolve_labeled_field g kw_tipo_cambio
    moneda := (detect_moneda g).map CellValue.vStr
    incoterm := (detect_incoterm g).map CellValue.vStr
    observaciones := resolve_observaciones g (process_products g).2 }

/-- One flat output row: the file name, the shared header fields, and
the product fields of one row (or none for a header-only record).  The
header and product key sets of the merged dict are disjoint, so the
split is faithful. -/
structure InvoiceRecord where
  archivo : String
  header : HeaderData
  product : Option Product
deriving DecidableEq

/-- Record assembly (lines 371-377): one record per product, or a
single header-only record when no products were found. -/
def assemble_records (fname : String) (hd : HeaderData) (products : List Product) :
    List InvoiceRecord :=
  if products.isEmpty then [{ archivo := fname, header := hd, product := none }]
  else products.map fun p => { archivo := fname, header := hd, product := some p }

/-- `process_file` on a successfully loaded workbook. -/
def process_file (fname : String) (g : Grid) : List InvoiceRecord :=
  assemble_records fname (process_header g) (process_products g).1

/-! ## Concrete grids used as test inputs -/

/-- A workbook with no populated cells. -/
def gEmpty : Grid := ⟨1, 1, [], []⟩

/-- Day/month/year labels in row 1 with the values `"5"`, `"MARZO"`,
`"2024"` directly below each label. -/
def gC1 : Grid :=
  ⟨5, 6, [(1, 1, .vStr "DIA"), (1, 3, .vStr "MES"), (1, 5, .vStr "AÑO"),
          (2, 1, .vStr "5"), (2, 3, .vStr "MARZO"), (2, 5, .vStr "2024")], []⟩

/-- A table whose only data row has a positive price and the non-empty
description `"SUBTOTAL CAJAS"` (which contains but does not start with
`TOTAL`). -/
def gC2 : Grid :=
  ⟨3, 4, [(1, 1, .vStr "DESCRIPCION"), (1, 2, .vStr "CANTIDAD"), (1, 3, .vStr "PRECIO"),
          (2, 1, .vStr "SUBTOTAL CAJAS"), (2, 2, .vStr "1"), (2, 3, .vStr "5")], []⟩

/-- A table with two good rows followed by a `"TOTAL GENERAL"` row
that carries numeric values. -/
def gC3 : Grid :=
  ⟨6, 4, [(1, 1, .vStr "DESCRIPCION"), (1, 2, .vStr "CANTIDAD"), (1, 3, .vStr "PRECIO"),
          (1, 4, .vStr "TOTAL"),
          (2, 1, .vStr "Widget A"), (2, 2, .vStr "2"), (2, 3, .vStr "3"), (2, 4, .vStr "6"),
          (3, 1, .vStr "Widget B"), (3, 2, .vStr "1"), (3, 3, .vStr "4"),
          (4, 1, .vStr "TOTAL GENERAL"), (4, 2, .vStr "3"), (4, 4, .vStr "10")], []⟩

/-- A table with an accepted row 2, sixteen blank rows 3-18, an
acceptable row 19, and the first `"TOTAL"`-prefixed row at 20. -/
def gC3b : Grid :=
  ⟨20, 4, [(1, 1, .vStr "DESCRIPCION"), (1, 2, .vStr "CANTIDAD"), (1, 3, .vStr "PRECIO"),
           (2, 1, .vStr "Widget A"), (2, 2, .vStr "1"), (2, 3, .vStr "5"),
           (19, 1, .vStr "Widget B"), (19, 2, .vStr "2"), (19, 3, .vStr "7"),
           (20, 1, .vStr "TOTAL GENERAL"), (20, 2, .vStr "99")], []⟩

/-- A mixed table: accepted row 2, rejected non-blank row 3 (price 0),
blank row 4, accepted row 5, stop row 6. -/
def gC3m : Grid :=
  ⟨6, 4, [(1, 1, .vStr "DESCRIPCION"), (1, 2, .vStr "CANTIDAD"), (1, 3, .vStr "PRECIO"),
          (2, 1, .vStr "Widget A"), (2, 2, .vStr "2"), (2, 3, .vStr "3"),
          (3, 1, .vStr "FREE SAMPLE"), (3, 2, .vStr "1"), (3, 3, .vStr "0"),
          (5, 1, .vStr "Widget B"), (5, 2, .vStr "1"), (5, 3, .vStr "4"),
          (6, 1, .vStr "TOTAL GENERAL"), (6, 2, .vStr "3")], []⟩

/-- A table whose row 2 is accepted (price `12.5`, no line-total
column mapped). -/
def gWB : Grid :=
  ⟨3, 4, [(1, 1, .vStr "DESCRIPCION"), (1, 2, .vStr "CANTIDAD"), (1, 3, .vStr "PRECIO"),
          (2, 1, .vStr "Widget B"), (2, 2, .vStr "10"), (2, 3, .vStr "12.5")], []⟩

/-- An accepted row 2, ten blank rows 3-12, a rejected non-blank row
13 (price 0), ten blank rows 14-23, and an acceptable row 24. -/
def gC8 : Grid :=
  ⟨24, 4, [(1, 1, .vStr "DESCRIPCION"), (1, 2, .vStr "CANTIDAD"), (1, 3, .vStr "PRECIO"),
           (2, 1, .vStr "WIDGET A"), (2, 2, .vStr "1"), (2, 3, .vStr "5"),
           (13, 1, .vStr "X"), (13, 2, .vStr "2"),
           (24, 1, .vStr "WIDGET C"), (24, 2, .vStr "2"), (24, 3, .vStr "7")], []⟩

/-- A table header followed by two blank rows and an acceptable row. -/
def gBlank : Grid :=
  ⟨4, 3, [(1, 1, .vStr "DESCRIPCION"), (1, 2, .vStr "CANTIDAD"), (1, 3, .vStr "PRECIO"),
          (4, 1, .vStr "WIDGET D"), (4, 2, .vStr "1"), (4, 3, .vStr "3")], []⟩

/-- A grid whose only text cell reads `"TOTAL FOB"`. -/
def gFOB : Grid := ⟨3, 3, [(2, 2, .vStr "TOTAL FOB")], []⟩

/-- A grid whose only text cell reads `"FOBS"` (no word boundary). -/
def gFOBS : Grid := ⟨3, 3, [(2, 2, .vStr "FOBS")], []⟩

/-- A `"CLIENTE"` label whose right-hand neighbour reads `"MES"` — the
text of another known label keyword. -/
def gC9 : Grid := ⟨2, 3, [(1, 1, .vStr "CLIENTE"), (1, 2, .vStr "MES")], []⟩

/-- A grid whose only populated cell holds the float `0.0`. -/
def gZero : Grid := ⟨2, 2, [(2, 2, .vFloat 0)], []⟩

example : normalizeStr "  Condición  " = "CONDICION" := by decide
example : parse_month "MARZO" = some "03" := by decide
example : get_float (.vStr "12.5") = 25 / 2 := by with_unfolding_all rfl
example : get_float (.vStr "u$s 1,234.50") = 2469 / 2 := by with_unfolding_all rfl
example : get_float (.vStr "abc") = 0 := by with_unfolding_all rfl
example : wholeWordMatch "FOB" "TOTAL FOB" = true := by decide
example : wholeWordMatch "FOB" "FOBS" = false := by decide

/-! ## Helper lemmas -/

/-- A leading occurrence is an occurrence. -/
theorem listContains_of_isPrefixOf {pat s : List Char} (h : pat.isPrefixOf s = true) :
    listContains pat s = true := by
  cases s with
  | nil =>
    cases pat with
    | nil => rfl
    | cons p ps => simp [List.isPrefixOf] at h
  | cons c t => simp [listContains, h]

/-- `s.startswith(pat)` implies `pat in s`. -/
theorem strContains_of_strStartsWith {s pat : String} (h : strStartsWith s pat = true) :
    strContains s pat = true :=
  listContains_of_isPrefixOf h

/-- A falsy cell value normalises to the empty string. -/
theorem normalize_text_falsy {v : CellValue} (h : pyTruthy v = false) :
    normalize_text v = "" := by
  unfold normalize_text
  rw [h]
  rfl

/-- A detected value is final: the global-scan fold ignores the rest
of the list once the accumulator is `some`. -/
theorem foldl_detectStep_some {β : Type} (f : String → Option β) (l : List String)
    (b : β) : l.foldl (detectStep f) (some b) = some b := by
  induction l with
  | nil => rfl
  | cons a t ih => simpa [detectStep] using ih

/-- From an empty accumulator, the global-scan fold returns the first
list element the per-cell detector accepts. -/
theorem foldl_detectStep_none {β : Type} (f : String → Option β) (l : List String) :
    l.foldl (detectStep f) none = l.findSome? f := by
  induction l with
  | nil => rfl
  | cons a t ih =>
    simp only [List.foldl_cons, List.findSome?_cons]
    cases hfa : f a with
    | some b => simpa [detectStep, hfa] using foldl_detectStep_some f t b
    | none => simpa [detectStep, hfa] using ih

/-- Whatever `extract_value_near_label` returns has a non-empty
normalised text mentioning neither `"CLIENTE"` nor `"FECHA"`. -/
theorem extract_some_props {g : Grid} {lr lc : Nat} {down right : Bool} {ms : Nat}
    {v : CellValue} (h : extract_value_near_label g lr lc down right ms = some v) :
    normalize_text v ≠ "" ∧ strContains (normalize_text v) "CLIENTE" = false ∧
      strContains (normalize_text v) "FECHA" = false := by
  unfold extract_value_near_label at h
  obtain ⟨d, -, hd⟩ := List.exists_of_findSome?_eq_some h
  obtain ⟨i, -, hi⟩ := List.exists_of_findSome?_eq_some hd
  dsimp only at hi
  split at hi
  · exact absurd hi (by simp)
  · split at hi
    · exact absurd hi (by simp)
    · rename_i h1 h2
      obtain rfl := Option.some.inj hi
      simp only [Bool.or_eq_true, not_or, Bool.not_eq_true] at h2
      exact ⟨by simpa using h1, h2.1, h2.2⟩

/-- A value returned by the resolver is truthy. -/
theorem extract_some_truthy {g : Grid} {lr lc : Nat} {down right : Bool} {ms : Nat}
    {v : CellValue} (h : extract_value_near_label g lr lc down right ms = some v) :
    pyTruthy v = true := by
  rcases hb : pyTruthy v with _ | _
  · exact absurd (normalize_text_falsy hb) (extract_some_props h).1
  · rfl

/-- The cell a label search returns has a non-empty normalised text. -/
theorem find_label_cell_some_nonempty {g : Grid} {kws : List String} {r c : Nat}
    (h : find_label_cell g kws = some (r, c)) :
    normalize_text (cellAt g r c) ≠ "" := by
  unfold find_label_cell at h
  obtain ⟨ri, -, hri⟩ := List.exists_of_findSome?_eq_some h
  obtain ⟨ci, -, hci⟩ := List.exists_of_findSome?_eq_some hri
  dsimp only at hci
  split at hci
  · exact absurd hci (by simp)
  · split at hci
    · rename_i h1 _
      obtain ⟨rfl, rfl⟩ := Prod.ext_iff.mp (Option.some.inj hci)
      simpa using h1
    · exact absurd hci (by simp)

/-- An accepted row's description contains no `"TOTAL"`, hence also
does not start with it: acceptance implies the stop test fails. -/
theorem not_stop_of_accept {g : Grid} {dc : Nat} {cm : ColMap} {r : Nat}
    (h : acceptRow g dc cm r = true) :
    strStartsWith (rowDescNorm g dc r) "TOTAL" = false := by
  rcases hs : strStartsWith (rowDescNorm g dc r) "TOTAL" with _ | _
  · rfl
  · exfalso
    have hcont := strContains_of_strStartsWith hs
    simp only [acceptRow, Bool.and_eq_true] at h
    have : strContains (rowDescNorm g dc r) "TOTAL" = false := by simpa using h.2
    rw [this] at hcont
    exact Bool.false_ne_true hcont

/-- A blank row is never accepted. -/
theorem acceptRow_blank {g : Grid} {dc : Nat} {cm : ColMap} {r : Nat}
    (h : rowDescNorm g dc r = "") : acceptRow g dc cm r = false := by
  simp [acceptRow, h]

/-- Anything already accumulated survives to the end of the stream. -/
theorem mem_scanAux_acc (g : Grid) (dc : Nat) (cm : ColMap) :
    ∀ (fuel curr streak : Nat) (acc : List Product) (lastRow : Nat) (x : Product),
      x ∈ acc → x ∈ (scanAux g dc cm fuel curr streak acc lastRow).1 := by
  intro fuel
  induction fuel with
  | zero =>
    intro curr streak acc lastRow x hx
    simpa [scanAux] using hx
  | succ f ih =>
    intro curr streak acc lastRow x hx
    simp only [scanAux]
    split
    · simpa using hx
    · split
      · exact ih (curr + 1) 0 _ curr x (List.mem_cons_of_mem _ hx)
      · split
        · split
          · simpa using hx
          · exact ih (curr + 1) (streak + 1) acc lastRow x hx
        · exact ih (curr + 1) streak acc lastRow x hx

/-- Every product the stream emits beyond the accumulator comes from
some accepted row at or after the current one. -/
theorem scanAux_sound (g : Grid) (dc : Nat) (cm : ColMap) :
    ∀ (fuel curr streak : Nat) (acc : List Product) (lastRow : Nat) (p : Product),
      p ∈ (scanAux g dc cm fuel curr streak acc lastRow).1 →
      p ∈ acc ∨ ∃ r, curr ≤ r ∧ acceptRow g dc cm r = true ∧ p = mkProd g dc cm r := by
  intro fuel
  induction fuel with
  | zero =>
    intro curr streak acc lastRow p hp
    left
    simpa [scanAux] using hp
  | succ f ih =>
    intro curr streak acc lastRow p hp
    simp only [scanAux] at hp
    split at hp
    · left; simpa using hp
    · split at hp
      · rename_i haccept
        rcases ih (curr + 1) 0 _ curr p hp with hin | ⟨r, hr, h2, h3⟩
        · rcases List.mem_cons.mp hin with h1 | h1
          · exact Or.inr ⟨curr, Nat.le_refl _, haccept, h1⟩
          · exact Or.inl h1
        · exact Or.inr ⟨r, by omega, h2, h3⟩
      · split at hp
        · split at hp
          · left; simpa using hp
          · rcases ih (curr + 1) (streak + 1) acc lastRow p hp with hin | ⟨r, hr, h2, h3⟩
            · exact Or.inl hin
            · exact Or.inr ⟨r, by omega, h2, h3⟩
        · rcases ih (curr + 1) streak acc lastRow p hp with hin | ⟨r, hr, h2, h3⟩
          · exact Or.inl hin
          · exact Or.inr ⟨r, by omega, h2, h3⟩

/-- If the current row is accepted and at least one row of budget
remains, its product is in the stream's output. -/
theorem scanAux_accept_mem (g : Grid) (dc : Nat) (cm : ColMap)
    (fuel curr streak : Nat) (acc : List Product) (lastRow : Nat)
    (hacc : acceptRow g dc cm curr = true) (hfuel : 0 < fuel) :
    mkProd g dc cm curr ∈ (scanAux g dc cm fuel curr streak acc lastRow).1 := by
  cases fuel with
  | zero => omega
  | succ f =>
    have heq : scanAux g dc cm (f + 1) curr streak acc lastRow
        = scanAux g dc cm f (curr + 1) 0 (mkProd g dc cm curr :: acc) curr := by
      simp [scanAux, not_stop_of_accept hacc, hacc]
    rw [heq]
    exact mem_scanAux_acc g dc cm f (curr + 1) 0 _ curr _ (List.mem_cons_self _ _)

/-- Once the current row is blank, the stream neither stops nor
accepts; with a streak still within patience it recurses. -/
theorem scanAux_blank_step (g : Grid) (dc : Nat) (cm : ColMap)
    (f curr streak : Nat) (acc : List Product) (lastRow : Nat)
    (hb : rowDescNorm g dc curr = "") (hs : streak + 1 ≤ 15) :
    scanAux g dc cm (f + 1) curr streak acc lastRow
      = scanAux g dc cm f (curr + 1) (streak + 1) acc lastRow := by
  have h1 : strStartsWith "" "TOTAL" = false := by decide
  have h2 : ¬ (15 < streak + 1) := by omega
  simp [scanAux, hb, acceptRow_blank hb, h1, h2]

/-- With the streak at the boundary, one more blank row aborts the
scan, returning the accumulator and `curr - 15`. -/
theorem scanAux_blank_abort_step (g : Grid) (dc : Nat) (cm : ColMap)
    (f curr : Nat) (acc : List Product) (lastRow : Nat)
    (hb : rowDescNorm g dc curr = "") :
    scanAux g dc cm (f + 1) curr 15 acc lastRow = (acc.reverse, curr - 15) := by
  have h1 : strStartsWith "" "TOTAL" = false := by decide
  simp [scanAux, hb, acceptRow_blank hb, h1]

/-- The accepted-row products over `range (k+1)` split as the head
row's contribution followed by the shifted tail. -/
theorem acceptedProds_range_succ (g : Grid) (dc : Nat) (cm : ColMap) (curr k : Nat) :
    ((List.range (k + 1)).filter (fun i => acceptRow g dc cm (curr + i))).map
        (fun i => mkProd g dc cm (curr + i)) =
      (if acceptRow g dc cm curr then [mkProd g dc cm curr] else []) ++
        ((List.range k).filter (fun i => acceptRow g dc cm (curr + 1 + i))).map
          (fun i => mkProd g dc cm (curr + 1 + i)) := by
  have hshift : ((List.range k).map Nat.succ).filter (fun i => acceptRow g dc cm (curr + i))
      = ((List.range k).filter (fun i => acceptRow g dc cm (curr + 1 + i))).map Nat.succ := by
    rw [List.filter_map]
    congr 1
    refine List.filter_congr fun a _ => ?_
    show acceptRow g dc cm (curr + Nat.succ a) = acceptRow g dc cm (curr + 1 + a)
    rw [show curr + Nat.succ a = curr + 1 + a from by omega]
  have htail : (((List.range k).filter (fun i => acceptRow g dc cm (curr + 1 + i))).map
        Nat.succ).map (fun i => mkProd g dc cm (curr + i))
      = ((List.range k).filter (fun i => acceptRow g dc cm (curr + 1 + i))).map
          (fun i => mkProd g dc cm (curr + 1 + i)) := by
    rw [List.map_map]
    refine List.map_congr_left fun a _ => ?_
    show mkProd g dc cm (curr + Nat.succ a) = mkProd g dc cm (curr + 1 + a)
    rw [show curr + Nat.succ a = curr + 1 + a from by omega]
  rw [List.range_succ_eq_map, List.filter_cons]
  cases hacc : acceptRow g dc cm curr with
  | false => simp [Nat.add_zero, hacc, hshift, htail]
  | true => simp [Nat.add_zero, hacc, hshift, htail]

/-- A prefix of `k` non-stop rows that never exhausts patience,
followed by a `TOTAL`-prefixed row, yields exactly the accepted rows
of the prefix, in order, and stops at the stop row. -/
theorem scanAux_mixed_to_stop (g : Grid) (dc : Nat) (cm : ColMap) :
    ∀ (k fuel curr streak : Nat) (acc : List Product) (lastRow : Nat), k < fuel →
      (∀ i, i < k → strStartsWith (rowDescNorm g dc (curr + i)) "TOTAL" = false) →
      (∀ i, i < k → rowDescNorm g dc (curr + i) = "" →
        scanStreak g dc cm curr streak i + 1 ≤ 15) →
      strStartsWith (rowDescNorm g dc (curr + k)) "TOTAL" = true →
      scanAux g dc cm fuel curr streak acc lastRow =
        (acc.reverse ++ ((List.range k).filter (fun i => acceptRow g dc cm (curr + i))).map
          (fun i => mkProd g dc cm (curr + i)), curr + k) := by
  intro k
  induction k with
  | zero =>
    intro fuel curr streak acc lastRow hf _ _ hstop
    cases fuel with
    | zero => omega
    | succ f =>
      rw [Nat.add_zero] at hstop
      simp [scanAux, hstop]
  | succ k ih =>
    intro fuel curr streak acc lastRow hf hnostop hnoabort hstop
    cases fuel with
    | zero => omega
    | succ f =>
      have hns0 : strStartsWith (rowDescNorm g dc curr) "TOTAL" = false := by
        simpa using hnostop 0 (by omega)
      have hnostop' : ∀ i, i < k →
          strStartsWith (rowDescNorm g dc (curr + 1 + i)) "TOTAL" = false := by
        intro i hi
        have := hnostop (i + 1) (by omega)
        rwa [show curr + (i + 1) = curr + 1 + i from by omega] at this
      have hstop' : strStartsWith (rowDescNorm g dc (curr + 1 + k)) "TOTAL" = true := by
        rwa [show curr + 1 + k = curr + (k + 1) from by omega]
      rw [acceptedProds_range_succ]
      cases hacc : acceptRow g dc cm curr with
      | true =>
        have heq : scanAux g dc cm (f + 1) curr streak acc lastRow
            = scanAux g dc cm f (curr + 1) 0 (mkProd g dc cm curr :: acc) curr := by
          simp [scanAux, hns0, hacc]
        rw [heq, ih f (curr + 1) 0 (mkProd g dc cm curr :: acc) curr (by omega) hnostop'
          (fun i hi hb => by
            have hstreak : scanStreak g dc cm curr streak (i + 1)
                = scanStreak g dc cm (curr + 1) 0 i := by
              simp [scanStreak, hacc]
            have := hnoabort (i + 1) (by omega)
              (by rwa [show curr + (i + 1) = curr + 1 + i from by omega])
            rwa [hstreak] at this)
          hstop']
        rw [Prod.mk.injEq]
        exact ⟨by simp [hacc, List.reverse_cons, List.append_assoc], by omega⟩
      | false =>
        cases hblank : rowDescNorm g dc curr == "" with
        | true =>
          have hb : rowDescNorm g dc curr = "" := by simpa using hblank
          have hs15 : streak + 1 ≤ 15 := by
            have := hnoabort 0 (by omega) (by simpa using hb)
            simpa [scanStreak] using this
          rw [scanAux_blank_step g dc cm f curr streak acc lastRow hb hs15,
            ih f (curr + 1) (streak + 1) acc lastRow (by omega) hnostop'
              (fun i hi hbi => by
                have hstreak : scanStreak g dc cm curr streak (i + 1)
                    = scanStreak g dc cm (curr + 1) (streak + 1) i := by
                  simp [scanStreak, hacc, hb]
                have := hnoabort (i + 1) (by omega)
                  (by rwa [show curr + (i + 1) = curr + 1 + i from by omega])
                rwa [hstreak] at this)
              hstop']
          rw [Prod.mk.injEq]
          exact ⟨by simp [hacc], by omega⟩
        | false =>
          have heq : scanAux g dc cm (f + 1) curr streak acc lastRow
              = scanAux g dc cm f (curr + 1) streak acc lastRow := by
            simp [scanAux, hns0, hacc, hblank]
          rw [heq, ih f (curr + 1) streak acc lastRow (by omega) hnostop'
            (fun i hi hbi => by
              have hstreak : scanStreak g dc cm curr streak (i + 1)
                  = scanStreak g dc cm (curr + 1) streak i := by
                simp [scanStreak, hacc, hblank]
              have := hnoabort (i + 1) (by omega)
                (by rwa [show curr + (i + 1) = curr + 1 + i from by omega])
              rwa [hstreak] at this)
            hstop']
          rw [Prod.mk.injEq]
          exact ⟨by simp [hacc], by omega⟩

/-- Skipping a run of blanks: if the streak plus the run stays within
patience and the row after the run is accepted within budget, its
product is emitted. -/
theorem scanAux_blank_skip (g : Grid) (dc : Nat) (cm : ColMap) :
    ∀ (N fuel curr streak : Nat) (acc : List Product) (lastRow : Nat),
      streak + N ≤ 15 →
      (∀ i, i < N → rowDescNorm g dc (curr + i) = "") →
      acceptRow g dc cm (curr + N) = true → N < fuel →
      mkProd g dc cm (curr + N) ∈ (scanAux g dc cm fuel curr streak acc lastRow).1 := by
  intro N
  induction N with
  | zero =>
    intro fuel curr streak acc lastRow _ _ hacc hf
    rw [Nat.add_zero] at hacc ⊢
    exact scanAux_accept_mem g dc cm fuel curr streak acc lastRow hacc (by omega)
  | succ N ih =>
    intro fuel curr streak acc lastRow hstreak hblank hacc hf
    cases fuel with
    | zero => omega
    | succ f =>
      have hb0 : rowDescNorm g dc curr = "" := by simpa using hblank 0 (by omega)
      rw [scanAux_blank_step g dc cm f curr streak acc lastRow hb0 (by omega)]
      have := ih f (curr + 1) (streak + 1) acc lastRow (by omega)
        (fun i hi => by
          have := hblank (i + 1) (by omega)
          rwa [show curr + (i + 1) = curr + 1 + i from by omega] at this)
        (by rwa [show curr + 1 + N = curr + (N + 1) from by omega]) (by omega)
      rwa [show curr + 1 + N = curr + (N + 1) from by omega] at this

/-- Aborting on a long run of blanks: once the streak is due to reach
16 within the remaining blanks and budget, the scan returns the
accumulator, recording the abort row minus 15. -/
theorem scanAux_blank_abort (g : Grid) (dc : Nat) (cm : ColMap) :
    ∀ (j fuel curr streak : Nat) (acc : List Product) (lastRow : Nat),
      streak + (j + 1) = 16 →
      (∀ i, i < j + 1 → rowDescNorm g dc (curr + i) = "") →
      j + 1 ≤ fuel →
      scanAux g dc cm fuel curr streak acc lastRow = (acc.reverse, curr + j - 15) := by
  intro j
  induction j with
  | zero =>
    intro fuel curr streak acc lastRow hs hblank hf
    cases fuel with
    | zero => omega
    | succ f =>
      have hb0 : rowDescNorm g dc curr = "" := by simpa using hblank 0 (by omega)
      have hstreak : streak = 15 := by omega
      subst hstreak
      rw [scanAux_blank_abort_step g dc cm f curr acc lastRow hb0, Nat.add_zero]
  | succ j ih =>
    intro fuel curr streak acc lastRow hs hblank hf
    cases fuel with
    | zero => omega
    | succ f =>
      have hb0 : rowDescNorm g dc curr = "" := by simpa using hblank 0 (by omega)
      rw [scanAux_blank_step g dc cm f curr streak acc lastRow hb0 (by omega)]
      have := ih f (curr + 1) (streak + 1) acc lastRow (by omega)
        (fun i hi => by
          have := hblank (i + 1) (by omega)
          rwa [show curr + (i + 1) = curr + 1 + i from by omega] at this)
        (by omega)
      rwa [show curr + 1 + j = curr + (j + 1) from by omega] at this

/-! ## Claims -/

/-- C10: text normalisation maps every falsy cell value — `None`, `""`,
but also `0`, `0.0` and `False` — to the empty string, so such a cell
can never be returned as a label match and the neighbourhood resolver
never returns it as a value. -/
theorem C10_falsy_cells_are_empty :
    (∀ v : CellValue, pyTruthy v = false → normalize_text v = "") ∧
    normalize_text (.vInt 0) = "" ∧ normalize_text (.vFloat 0) = "" ∧
    normalize_text (.vBool false) = "" ∧ normalize_text (.vStr "") = "" ∧
    normalize_text .vNone = "" ∧
    (∀ (g : Grid) (kws : List String) (r c : Nat),
      pyTruthy (cellAt g r c) = false → find_label_cell g kws ≠ some (r, c)) ∧
    (∀ (g : Grid) (lr lc : Nat) (down right : Bool) (ms : Nat) (v : CellValue),
      extract_value_near_label g lr lc down right ms = some v → pyTruthy v = true) := by
  refine ⟨fun v h => normalize_text_falsy h, rfl, ?_, rfl, rfl, rfl, ?_, ?_⟩
  · exact normalize_text_falsy (by with_unfolding_all rfl)
  · intro g kws r c hfalsy hfind
    exact find_label_cell_some_nonempty hfind (normalize_text_falsy hfalsy)
  · intro g lr lc down right ms v h
    exact extract_some_truthy h

/-- Witness for C10 at a concrete input: the float `0.0` is falsy,
normalises to `""`, and the cell of `gZero` holding it is never the
result of a label search. -/
theorem C10_witness :
    normalize_text (.vFloat 0) = "" ∧
      find_label_cell gZero kw_tipo_cambio ≠ some (2, 2) :=
  ⟨C10_falsy_cells_are_empty.1 (.vFloat 0) (by with_unfolding_all rfl),
   C10_falsy_cells_are_empty.2.2.2.2.2.2.1 gZero kw_tipo_cambio 2 2
     (by with_unfolding_all rfl)⟩

/-- C5: if no cell inside the scanned region (rows 1-150, columns
1-50) contains any normalised keyword, the label search returns `none`
and the resolved field is `null` — extraction is total, so it never
raises and never substitutes a default. -/
theorem C5_absent_field_is_null (g : Grid) (kws : List String)
    (h : ∀ r c : Nat, r < 150 → c < 50 → ∀ k ∈ kws.map normalizeStr,
      strContains (normalize_text (cellAt g (r + 1) (c + 1))) k = false) :
    find_label_cell g kws = none ∧ resolve_labeled_field g kws = none := by
  have hf : find_label_cell g kws = none := by
    unfold find_label_cell
    rw [List.findSome?_eq_none_iff]
    intro ri hri
    rw [List.findSome?_eq_none_iff]
    intro ci hci
    dsimp only
    split
    · rfl
    · have hany : (kws.map normalizeStr).any
          (fun k => strContains (normalize_text (cellAt g (ri + 1) (ci + 1))) k) = false := by
        simp only [List.any_eq_false, Bool.not_eq_true]
        intro k hk
        exact h ri ci (List.mem_range.mp hri) (List.mem_range.mp hci) k hk
      simp [hany]
  refine ⟨hf, ?_⟩
  unfold resolve_labeled_field
  rw [hf]

/-- Witness for C5: the empty workbook resolves the client field to
`null` without error. -/
theorem C5_witness :
    find_label_cell gEmpty kw_cliente = none ∧
      resolve_labeled_field gEmpty kw_cliente = none :=
  C5_absent_field_is_null gEmpty kw_cliente (by
    intro r c _ _ k hk
    rw [show kw_cliente.map normalizeStr =
      ["CLIENTE", "CUSTOMER", "CONSIGNEE", "SOLD TO"] from by decide] at hk
    rw [show cellAt gEmpty (r + 1) (c + 1) = CellValue.vNone from rfl]
    simp only [List.mem_cons, List.not_mem_nil, or_false] at hk
    rcases hk with rfl | rfl | rfl | rfl <;> rfl)

/-- C9 counterexample: `"MES"` is a known label keyword (of the month
set, normalising to itself), yet the resolver captures it as the value
next to a `"CLIENTE"` label — the rejection predicate does not test
arbitrary label keywords. -/
theorem C9_counterexample :
    "MES" ∈ kw_mes ∧ normalizeStr "MES" = "MES" ∧
      find_label_cell gC9 kw_cliente = some (1, 1) ∧
      resolve_labeled_field gC9 kw_cliente = some (.vStr "MES") :=
  ⟨by decide, by decide, by decide, by decide⟩

/-- C9 amended: the resolver rejects exactly the candidates whose
normalised text contains `"CLIENTE"` or `"FECHA"` (so a cell reading
`"FECHA"` is never captured for a neighbouring `"CLIENTE"` label), and
otherwise returns the first non-empty candidate; cells matching other
label keywords are not rejected. -/
theorem C9_label_rejection (g : Grid) (lr lc : Nat) (down right : Bool) (ms : Nat)
    (v : CellValue) (h : extract_value_near_label g lr lc down right ms = some v) :
    normalize_text v ≠ "" ∧ strContains (normalize_text v) "CLIENTE" = false ∧
      strContains (normalize_text v) "FECHA" = false :=
  extract_some_props h

/-- Witness for C9 at a concrete input. -/
theorem C9_witness :
    normalize_text (.vStr "MES") ≠ "" ∧
      strContains (normalize_text (.vStr "MES")) "CLIENTE" = false ∧
      strContains (normalize_text (.vStr "MES")) "FECHA" = false :=
  C9_label_rejection gC9 1 1 true true 10 (.vStr "MES") (by decide)

/-- C4: the incoterm is decided by the bounded whole-cell scan — the
detection equals the first diagnostic text the per-cell whole-word
detector accepts, the header field is exactly the scan's outcome
(independent of label resolution), and a grid whose only text cell is
`"TOTAL FOB"` resolves the incoterm to `"FOB"` while `"FOBS"` does not
match. -/
theorem C4_incoterm_scan :
    (∀ g : Grid, detect_incoterm g = (get_all_sheet_text g).findSome? cellIncoterm) ∧
    (∀ g : Grid, (process_header g).incoterm = (detect_incoterm g).map CellValue.vStr) ∧
    get_all_sheet_text gFOB = ["TOTAL FOB"] ∧
    detect_incoterm gFOB = some "FOB" ∧
    cellIncoterm "TOTAL FOB" = some "FOB" ∧
    detect_incoterm gFOBS = none := by
  refine ⟨fun g => ?_, fun g => rfl, by decide, by decide, by decide, by decide⟩
  exact foldl_detectStep_none cellIncoterm (get_all_sheet_text g)

/-- C1 counterexample: in `gC1` the day, month and year labels resolve
to exactly `"5"`, `"MARZO"`, `"2024"`, yet the assembled date is
`"5/03/2024"` — the single-digit day is not zero-padded. -/
theorem C1_counterexample :
    resolve_val_d gC1 = some (.vStr "5") ∧
      resolve_val_m gC1 = some (.vStr "MARZO") ∧
      resolve_val_y gC1 = some (.vStr "2024") ∧
      parse_month "MARZO" = some "03" ∧
      resolve_fecha gC1 = some (.vStr "5/03/2024") ∧
      CellValue.vStr "5/03/2024" ≠ CellValue.vStr "05/03/2024" :=
  ⟨by decide, by decide, by decide, by decide, by decide, by decide⟩

/-- C1 amended: whenever the three labels resolve to `"5"`, `"MARZO"`,
`"2024"`, the assembled date is `"5/03/2024"`: the month is normalised
through the bilingual table, but the day is inserted as-is, without
zero-padding. -/
theorem C1_date_assembly (g : Grid)
    (hd : resolve_val_d g = some (.vStr "5"))
    (hm : resolve_val_m g = some (.vStr "MARZO"))
    (hy : resolve_val_y g = some (.vStr "2024")) :
    resolve_fecha g = some (.vStr "5/03/2024") := by
  unfold resolve_fecha
  rw [hy, hm, hd]
  with_unfolding_all rfl

/-- Witness for C1 at the concrete grid `gC1`. -/
theorem C1_witness : resolve_fecha gC1 = some (.vStr "5/03/2024") :=
  C1_date_assembly gC1 (by decide) (by decide) (by decide)

/-- C2 counterexample: in `gC2` the table is located, the only data
row has parsed unit price `5 > 0` and the non-empty description
`"SUBTOTAL CAJAS"`, yet no product is accepted — the filter also
requires the description not to contain `"TOTAL"`, so acceptance is
not equivalent to price > 0 plus non-empty description. -/
theorem C2_counterexample :
    find_header_row gC2 = some (1, buildColMap gC2 1) ∧
      (process_products gC2).1 = [] ∧
      0 < rowPrice gC2 (buildColMap gC2 1) 2 ∧
      rowDescNorm gC2 1 2 = "SUBTOTAL CAJAS" := by
  refine ⟨by decide, by with_unfolding_all rfl, ?_, by decide⟩
  have h5 : rowPrice gC2 (buildColMap gC2 1) 2 = 5 := by with_unfolding_all rfl
  rw [h5]
  norm_num

/-- C2 amended: a streamed row is accepted iff its parsed unit price
is positive, its normalised description is non-empty and the
description does not contain `"TOTAL"`.  Soundness: every emitted
product comes from such a row at or below the header, and when the raw
line-total parses to zero or less (in particular when the column is
absent) its total is quantity × unit price.  Completeness: a row
satisfying the filter is emitted whenever the stream reaches it. -/
theorem C2_row_acceptance :
    (∀ (g : Grid) (dc : Nat) (cm : ColMap) (h : Nat) (p : Product),
      p ∈ (scanTable g dc cm h).1 →
      ∃ r, h + 1 ≤ r ∧ p = mkProd g dc cm r ∧
        0 < rowPrice g cm r ∧ rowDescNorm g dc r ≠ "" ∧
        strContains (rowDescNorm g dc r) "TOTAL" = false ∧
        (rowTotalRaw g cm r ≤ 0 → p.totalLinea = rowQty g cm r * rowPrice g cm r)) ∧
    (∀ (g : Grid) (dc : Nat) (cm : ColMap) (fuel curr streak : Nat)
        (acc : List Product) (lastRow : Nat),
      acceptRow g dc cm curr = true → 0 < fuel →
      mkProd g dc cm curr ∈ (scanAux g dc cm fuel curr streak acc lastRow).1) := by
  constructor
  · intro g dc cm h p hp
    unfold scanTable at hp
    rcases scanAux_sound g dc cm _ _ _ _ _ p hp with hin | ⟨r, hr, haccept, rfl⟩
    · simp at hin
    · simp only [acceptRow, Bool.and_eq_true] at haccept
      obtain ⟨⟨h1, h2⟩, h3⟩ := haccept
      refine ⟨r, hr, rfl, of_decide_eq_true h1, by simpa using h2, by simpa using h3, ?_⟩
      intro hle
      show (if 0 < rowTotalRaw g cm r then rowTotalRaw g cm r
        else rowQty g cm r * rowPrice g cm r) = rowQty g cm r * rowPrice g cm r
      rw [if_neg (not_lt.mpr hle)]
  · intro g dc cm fuel curr streak acc lastRow hacc hfuel
    exact scanAux_accept_mem g dc cm fuel curr streak acc lastRow hacc hfuel

/-- Witness for C2: the `"Widget B"` row of `gWB` (price `12.5`, no
total column) is accepted. -/
theorem C2_witness :
    mkProd gWB 1 (buildColMap gWB 1) 2 ∈
      (scanAux gWB 1 (buildColMap gWB 1) 2 2 0 [] 20).1 :=
  C2_row_acceptance.2 gWB 1 (buildColMap gWB 1) 2 2 0 [] 20
    (by with_unfolding_all rfl) (by decide)

/-- C3 counterexample: in `gC3b` the table is located, the first
`"TOTAL"`-prefixed data row is row 20 (within bounds, no stop row
before it), and an acceptable row 19 precedes it — yet the stream
never reaches the stop row: sixteen consecutive blanks abort the scan
first, the products hold only row 2, row 19's product is missing, and
the recorded end row is 3, not 20.  The first TOTAL row does not
always terminate the row stream. -/
theorem C3_counterexample :
    find_header_row gC3b = some (1, buildColMap gC3b 1) ∧
      strStartsWith (rowDescNorm gC3b 1 20) "TOTAL" = true ∧
      ((List.range 18).all fun i =>
        !(strStartsWith (rowDescNorm gC3b 1 (2 + i)) "TOTAL")) = true ∧
      (20 : Nat) ≤ gC3b.maxRow ∧
      acceptRow gC3b 1 (buildColMap gC3b 1) 19 = true ∧
      (process_products gC3b).1 = [mkProd gC3b 1 (buildColMap gC3b 1) 2] ∧
      ((process_products gC3b).1.contains (mkProd gC3b 1 (buildColMap gC3b 1) 19)) = false ∧
      (process_products gC3b).2 = 3 := by
  refine ⟨by decide, by decide, by decide, by decide, by with_unfolding_all rfl,
    by with_unfolding_all rfl, by with_unfolding_all rfl, by with_unfolding_all rfl⟩

/-- C3 amended: for every located table, the first streamed row whose
normalised description starts with `"TOTAL"` terminates the stream —
provided the blank-patience abort does not strike first (no blank row
of the prefix pushes the streak past 15).  The stop row is excluded,
and exactly the rows accepted before it are retained, in order, with
arbitrary rejected or blank rows in between. -/
theorem C3_stop_rule_general (g : Grid) (dc : Nat) (cm : ColMap) (h k : Nat)
    (hnostop : ∀ i, i < k → strStartsWith (rowDescNorm g dc (h + 1 + i)) "TOTAL" = false)
    (hnoabort : ∀ i, i < k → rowDescNorm g dc (h + 1 + i) = "" →
      scanStreak g dc cm (h + 1) 0 i + 1 ≤ 15)
    (hstop : strStartsWith (rowDescNorm g dc (h + 1 + k)) "TOTAL" = true)
    (hbound : h + 1 + k ≤ g.maxRow) :
    scanTable g dc cm h =
      (((List.range k).filter (fun i => acceptRow g dc cm (h + 1 + i))).map
        (fun i => mkProd g dc cm (h + 1 + i)), h + 1 + k) := by
  unfold scanTable
  have := scanAux_mixed_to_stop g dc cm k (g.maxRow - h) (h + 1) 0 [] 20
    (by omega) hnostop hnoabort hstop
  simpa using this

/-- Witness for C3 at the mixed table `gC3m`: an accepted row, a
rejected non-blank row and a blank row precede a second accepted row,
then the `"TOTAL GENERAL"` row 6 stops the table. -/
theorem C3_witness :
    scanTable gC3m 1 (buildColMap gC3m 1) 1 =
      (((List.range 4).filter (fun i => acceptRow gC3m 1 (buildColMap gC3m 1) (1 + 1 + i))).map
        (fun i => mkProd gC3m 1 (buildColMap gC3m 1) (1 + 1 + i)), 1 + 1 + 4) :=
  C3_stop_rule_general gC3m 1 (buildColMap gC3m 1) 1 4
    (by intro i hi; interval_cases i <;> decide)
    (by
      intro i hi hb
      interval_cases i
      · exact absurd hb (by decide)
      · exact absurd hb (by decide)
      · have hs : scanStreak gC3m 1 (buildColMap gC3m 1) (1 + 1) 0 2 = 0 := by
          with_unfolding_all rfl
        rw [hs]
        omega
      · exact absurd hb (by decide))
    (by decide) (by decide)

/-- C6: a processed document always yields at least one record: one
per product, and exactly one header-only record when no products were
found — in particular when no table header row was located. -/
theorem C6_record_cardinality (fname : String) (g : Grid) :
    0 < (process_file fname g).length ∧
    (process_file fname g).length =
      (if (process_products g).1.isEmpty then 1 else (process_products g).1.length) ∧
    (find_header_row g = none → (process_file fname g).length = 1) := by
  unfold process_file assemble_records
  rcases hemp : (process_products g).1.isEmpty with _ | _
  · have hne : (process_products g).1 ≠ [] := by
      simpa [List.isEmpty_iff] using hemp
    refine ⟨?_, ?_, ?_⟩
    · simpa [hemp, List.length_map] using List.length_pos.mpr hne
    · simp [hemp, List.length_map]
    · intro hf
      exfalso
      apply hne
      unfold process_products
      rw [hf]
  · refine ⟨?_, ?_, fun _ => ?_⟩ <;> simp [hemp]

/-- Witness for C6: the empty workbook (no table header row) yields
exactly one record. -/
theorem C6_witness : (process_file "factura.xlsx" gEmpty).length = 1 :=
  (C6_record_cardinality "factura.xlsx" gEmpty).2.2 (by decide)

/-- C7: all records of one document share the same header fields and
file name; only the product part varies. -/
theorem C7_header_invariant (fname : String) (g : Grid) :
    (process_file fname g).map InvoiceRecord.header =
      List.replicate (process_file fname g).length (process_header g) ∧
    (process_file fname g).map InvoiceRecord.archivo =
      List.replicate (process_file fname g).length fname := by
  unfold process_file assemble_records
  split
  · constructor <;> rfl
  · constructor <;>
      simp [List.map_map, Function.comp_def, List.map_const', List.length_map]

/-- C8 counterexample: in `gC8` an accepted row 2 is followed by ten
blank rows, a rejected non-blank row 13, and ten more blank rows
(14-23) before an acceptable row 24 within bounds — a run of only ten
consecutive blanks, yet the scan aborts inside it because the streak
counter is not reset by the rejected row, so row 24 is never reached. -/
theorem C8_counterexample :
    (process_products gC8).1 = [mkProd gC8 1 (buildColMap gC8 1) 2] ∧
      ((List.range 10).all fun i => rowDescNorm gC8 1 (14 + i) == "") = true ∧
      rowDescNorm gC8 1 13 ≠ "" ∧
      acceptRow gC8 1 (buildColMap gC8 1) 13 = false ∧
      acceptRow gC8 1 (buildColMap gC8 1) 24 = true ∧
      (24 : Nat) ≤ gC8.maxRow ∧
      ((process_products gC8).1.contains (mkProd gC8 1 (buildColMap gC8 1) 24)) = false := by
  refine ⟨by with_unfolding_all rfl, by decide, by decide, by with_unfolding_all rfl,
    by with_unfolding_all rfl, by decide, by with_unfolding_all rfl⟩

/-- C8 amended: the patience threshold is 15 and the streak counter is
reset only by accepted rows.  For a run of `N` consecutive blank rows
starting at the top of the table (streak 0): if `N ≤ 15` and the row
after the run is accepted within bounds, its product is emitted — the
scan continues past the run; if the first 16 rows are blank, the scan
aborts with no products, recording `header + 1`. -/
theorem C8_blank_patience :
    (∀ (g : Grid) (dc : Nat) (cm : ColMap) (h N : Nat),
      (∀ i, i < N → rowDescNorm g dc (h + 1 + i) = "") → N ≤ 15 →
      acceptRow g dc cm (h + 1 + N) = true → h + 1 + N ≤ g.maxRow →
      mkProd g dc cm (h + 1 + N) ∈ (scanTable g dc cm h).1) ∧
    (∀ (g : Grid) (dc : Nat) (cm : ColMap) (h : Nat),
      (∀ i, i < 16 → rowDescNorm g dc (h + 1 + i) = "") → h + 16 ≤ g.maxRow →
      scanTable g dc cm h = ([], h + 1)) := by
  constructor
  · intro g dc cm h N hblank hN hacc hbound
    unfold scanTable
    exact scanAux_blank_skip g dc cm N (g.maxRow - h) (h + 1) 0 [] 20
      (by omega) hblank hacc (by omega)
  · intro g dc cm h hblank hbound
    unfold scanTable
    have := scanAux_blank_abort g dc cm 15 (g.maxRow - h) (h + 1) 0 [] 20
      (by omega) hblank (by omega)
    simpa [show h + 1 + 15 - 15 = h + 1 from by omega] using this

/-- Witness for C8: in `gBlank`, two blank rows are skipped and the
acceptable row 4 is emitted. -/
theorem C8_witness :
    mkProd gBlank 1 (buildColMap gBlank 1) (1 + 1 + 2) ∈
      (scanTable gBlank 1 (buildColMap gBlank 1) 1).1 :=
  C8_blank_patience.1 gBlank 1 (buildColMap gBlank 1) 1 2
    (by intro i hi; interval_cases i <;> decide)
    (by decide) (by with_unfolding_all rfl) (by decide)

end Facturas
